import Mathlib

/-!
# A verification development for the rustypacket packet-processing core

Shallow embedding of the core of the `rustypacket` repository
(`src/rtpacket/...`), together with theorems settling the specification
claims about it.  Machine integers (`u32`, `usize`) are modelled as `Nat`
with explicit reduction modulo `2^w` where overflow can matter; Rust
`Vec<T>` and `HashMap<K,V>` become Lean lists (hash maps as association
lists with insert-at-front / first-match-lookup semantics, which realises
the same key-value map); `Rc<[u8]>` byte buffers become `List Nat`;
fallible operations (slice-index panics, `panic!`) return `Option` or a
dedicated outcome type.
-/

namespace RustyPacket

/-! ## Checksum engine — `src/rtpacket/checksum/mod.rs` -/

/-- Modulus of Rust `u32` arithmetic. -/
def U32 : Nat := 2 ^ 32

/-- The `for i in (0..length).step_by(2)` loop of `compute_checksum`:
`csum += (data[i] as u32) << 8;` and, when a following byte exists,
`csum += data[i + 1] as u32;`.  Each `+=` wraps at `2^32`. -/
def computeChecksumLoop : List Nat → Nat → Nat
  | [], csum => csum
  | [a], csum => (csum + a * 256) % U32
  | a :: b :: rest, csum => computeChecksumLoop rest (((csum + a * 256) % U32 + b) % U32)

/-- `compute_checksum(data, csum)` from `src/rtpacket/checksum/mod.rs`:
after the pairwise loop, the source has
`if length % 2 == 1 { csum += (data[length - 1] as u32) << 8; }`. -/
def compute_checksum (data : List Nat) (csum : Nat) : Nat :=
  let s := computeChecksumLoop data csum
  if data.length % 2 = 1 then (s + (data.getLast?.getD 0) * 256) % U32 else s

/-- `fold_checksum(csum)` from `src/rtpacket/checksum/mod.rs`:
`while csum > 0xffff { csum = (csum >> 16) + (csum & 0xffff); }` then
`!(csum as u16)` (bitwise complement of the low 16 bits). -/
def fold_checksum (csum : Nat) : Nat :=
  if csum > 0xffff then fold_checksum (csum / 65536 + csum % 65536)
  else 65535 - csum % 65536
termination_by csum
decreasing_by
  have h1 : 1 ≤ csum / 65536 := by
    have : 65536 ≤ csum := by omega
    exact Nat.one_le_div_iff (by norm_num) |>.mpr this
  omega

/-- The RFC1071 behaviour the claim describes for an odd trailing byte:
it contributes exactly once, so the result equals the result on the input
extended by one zero byte. -/
theorem compute_checksum_even_pair (a b csum : Nat) :
    compute_checksum [a, b] csum = ((csum + a * 256) % U32 + b) % U32 := by
  simp [compute_checksum, computeChecksumLoop]

/-- C4: FALSE of the code.  The spec says the odd trailing byte contributes
exactly once (equivalently, `compute_checksum` on odd-length input equals
`compute_checksum` on the input padded with one zero byte).  In the source
the `step_by(2)` loop already adds the trailing odd byte as the high byte of
a final word, and the `if length % 2 == 1` block then adds it a second time:
on input `[1]` with initial accumulator `0` the code yields `512`, while the
padded input `[1, 0]` yields `256`. -/
theorem c4_odd_trailing_byte_added_twice :
    compute_checksum [1] 0 = 512 ∧
    compute_checksum [1, 0] 0 = 256 ∧
    compute_checksum [1] 0 ≠ compute_checksum [1, 0] 0 := by
  refine ⟨by decide, by decide, by decide⟩

/-! ## Layer type ids and the LayerClass membership set —
`src/rtpacket/layertype/mod.rs`, `src/rtpacket/layerclass/mod.rs` -/

/-- `pub(crate) const MAX_LAYER_TYPE: usize = 2000;` -/
def MAX_LAYER_TYPE : Nat := 2000

/-- `new_layer_class_slice(types)`: a `Vec<bool>` of size `max(types) + 1`
with `t[typ] = true` for each member (`types.iter().max()` defaults to 0 on
an empty slice). -/
def new_layer_class_slice (types : List Nat) : List Bool :=
  let mx := types.foldl max 0
  types.foldl (fun t typ => t.set typ true) (List.replicate (mx + 1) false)

/-- `LayerClassSlice::contains`: `self.get(t).copied().unwrap_or(false)`. -/
def sliceContains (s : List Bool) (t : Nat) : Bool := s.getD t false

/-- `new_layer_class_map(types)`: a `HashMap<LayerTypeID, bool>` with each
member inserted as `true`; modelled as an association list where insertion
prepends and lookup takes the first match. -/
def new_layer_class_map (types : List Nat) : List (Nat × Bool) :=
  types.foldl (fun m typ => (typ, true) :: m) []

/-- `LayerClassMap::contains`: `*self.get(&t).unwrap_or(&false)`. -/
def mapContains (m : List (Nat × Bool)) (t : Nat) : Bool := (m.lookup t).getD false

/-- The two backing storages a `Box<dyn LayerClass>` built by
`new_layer_class` can carry. -/
inductive LayerClassImpl where
  | slice (s : List Bool)
  | map (m : List (Nat × Bool))
deriving DecidableEq

/-- `new_layer_class(types)`:
`if types.iter().any(|&typ| typ > MAX_LAYER_TYPE)` use the map, else the
dense slice. -/
def new_layer_class (types : List Nat) : LayerClassImpl :=
  if types.any (fun typ => typ > MAX_LAYER_TYPE) then
    .map (new_layer_class_map types)
  else
    .slice (new_layer_class_slice types)

/-- Membership test dispatched over the backing storage. -/
def LayerClassImpl.contains : LayerClassImpl → Nat → Bool
  | .slice s, t => sliceContains s t
  | .map m, t => mapContains m t

/-- Whether the backing storage is the dense boolean vector. -/
def LayerClassImpl.isSlice : LayerClassImpl → Bool
  | .slice _ => true
  | .map _ => false

theorem mapContains_foldl (types : List Nat) (acc : List (Nat × Bool)) (t : Nat) :
    mapContains (types.foldl (fun m typ => (typ, true) :: m) acc) t = true ↔
      t ∈ types ∨ mapContains acc t = true := by
  induction types generalizing acc with
  | nil => simp
  | cons ty rest ih =>
    simp only [List.foldl_cons, ih, List.mem_cons]
    have hcons : mapContains ((ty, true) :: acc) t = true ↔ t = ty ∨ mapContains acc t = true := by
      by_cases h : t = ty
      · subst h; simp [mapContains, List.lookup]
      · simp [mapContains, List.lookup, beq_false_of_ne h, h]
    rw [hcons]
    tauto

theorem sliceContains_set (acc : List Bool) (ty t : Nat) :
    sliceContains (acc.set ty true) t = true ↔
      (t = ty ∧ t < acc.length) ∨ sliceContains acc t = true := by
  unfold sliceContains
  rw [List.getD_eq_getElem?_getD, List.getD_eq_getElem?_getD]
  by_cases h : t = ty
  · subst h
    by_cases hlt : t < acc.length
    · rw [List.getElem?_set_self hlt]
      simp [hlt]
    · have h1 : acc.length ≤ t := Nat.le_of_not_lt hlt
      have h2 : (acc.set t true).length ≤ t := by simpa using h1
      rw [List.getElem?_eq_none h2, List.getElem?_eq_none h1]
      simp [hlt]
  · rw [List.getElem?_set_ne (fun hh => h hh.symm)]
    simp [h]

theorem sliceContains_foldl (types : List Nat) (acc : List Bool) (t : Nat) :
    sliceContains (types.foldl (fun s typ => s.set typ true) acc) t = true ↔
      (t ∈ types ∧ t < acc.length) ∨ sliceContains acc t = true := by
  induction types generalizing acc with
  | nil => simp
  | cons ty rest ih =>
    simp only [List.foldl_cons, ih, List.length_set, sliceContains_set, List.mem_cons]
    tauto

theorem le_foldl_max (types : List Nat) (a : Nat) : a ≤ types.foldl max a := by
  induction types generalizing a with
  | nil => simp
  | cons ty rest ih => exact le_trans (Nat.le_max_left a ty) (ih (max a ty))

theorem mem_le_foldl_max {types : List Nat} {t : Nat} (h : t ∈ types) (a : Nat) :
    t ≤ types.foldl max a := by
  induction types generalizing a with
  | nil => cases h
  | cons ty rest ih =>
    rcases List.mem_cons.mp h with h1 | h1
    · subst h1
      exact le_trans (Nat.le_max_right a t) (le_foldl_max rest (max a t))
    · exact ih h1 (max a ty)

theorem new_layer_class_slice_contains (types : List Nat) (t : Nat) :
    sliceContains (new_layer_class_slice types) t = true ↔ t ∈ types := by
  unfold new_layer_class_slice
  rw [sliceContains_foldl]
  have hrep : sliceContains (List.replicate (types.foldl max 0 + 1) false) t = false := by
    unfold sliceContains
    rw [List.getD_eq_getElem?_getD]
    rcases Nat.lt_or_ge t (types.foldl max 0 + 1) with hlt | hge
    · simp [List.getElem?_replicate, hlt]
    · have h2 : (List.replicate (types.foldl max 0 + 1) false)[t]? = none :=
        List.getElem?_eq_none (by simpa using hge)
      simp [h2]
  rw [hrep]
  simp only [List.length_replicate, Bool.false_eq_true, or_false]
  constructor
  · exact fun h => h.1
  · exact fun h => ⟨h, Nat.lt_succ_of_le (mem_le_foldl_max h 0)⟩

/-- C8 (counterexample): the claim says the backing storage is the dense
vector iff all member ids are strictly below `MAX_LAYER_TYPE`.  For the set
`{MAX_LAYER_TYPE}` not every id is below the threshold, yet the source's
test `typ > MAX_LAYER_TYPE` still selects the dense vector. -/
theorem c8_threshold_boundary_counterexample :
    (new_layer_class [MAX_LAYER_TYPE]).isSlice = true ∧
    ¬ (MAX_LAYER_TYPE < MAX_LAYER_TYPE) := by
  constructor
  · rfl
  · decide

/-- C8 (amended): the LayerClass built by `new_layer_class` has `contains t`
true exactly for the member ids `t` (and false for every other id, including
ids beyond the largest member), and its backing storage is the dense boolean
vector if and only if no member id EXCEEDS `MAX_LAYER_TYPE` (ids equal to
the threshold still use the dense vector; the hash map is chosen only when
some id is strictly greater). -/
theorem c8_layer_class_contains_and_storage (types : List Nat) (t : Nat) :
    ((new_layer_class types).contains t = true ↔ t ∈ types) ∧
    ((new_layer_class types).isSlice = true ↔ ∀ id ∈ types, id ≤ MAX_LAYER_TYPE) := by
  constructor
  · unfold new_layer_class
    by_cases h : types.any (fun typ => typ > MAX_LAYER_TYPE)
    · simp only [h, if_true, LayerClassImpl.contains]
      have := mapContains_foldl types [] t
      simpa [new_layer_class_map, mapContains, List.lookup] using this
    · simp only [h, if_false, Bool.false_eq_true, LayerClassImpl.contains]
      exact new_layer_class_slice_contains types t
  · unfold new_layer_class
    by_cases h : types.any (fun typ => typ > MAX_LAYER_TYPE)
    · simp only [h, if_true, LayerClassImpl.isSlice]
      rw [List.any_eq_true] at h
      obtain ⟨x, hx, hgt⟩ := h
      simp only [Bool.false_eq_true, false_iff]
      intro hall
      exact absurd (hall x hx) (by simpa using hgt)
    · simp only [h, if_false, Bool.false_eq_true, LayerClassImpl.isSlice, true_iff]
      intro id hid
      by_contra hgt
      exact h (List.any_eq_true.mpr ⟨id, hid, by simpa using Nat.lt_of_not_le hgt⟩)

/-! ## Layer type registry — `src/rtpacket/layertype/mod.rs`

`LayerType` is `{ id, name, decoder }` where `decoder` is a function
pointer; the registry is generic over the decoder type `δ` here, so the
bookkeeping is modelled for every possible decoder.  The registry's
`lt_meta` dense array (`[Option<LayerType>; MAX_LAYER_TYPE]`) becomes a
list of length `MAX_LAYER_TYPE`; the two `HashMap`s become association
lists (insert prepends, lookup takes the first match).  `num as usize`
is the `usize` cast of the signed `num`, i.e. reduction mod `2^64`. -/

/-- Modulus of Rust `usize` arithmetic (64-bit target). -/
def USIZE : Nat := 2 ^ 64

/-- `num as usize` for `num : isize`. -/
def asUsize (num : Int) : Nat := (num.emod (Int.ofNat USIZE)).toNat

structure LayerTypeR (δ : Type) where
  id : Nat
  name : String
  decoder : δ
deriving DecidableEq

structure LayerRegistry (δ : Type) where
  decoders_by_layer_name : List (String × δ)
  lt_meta_map : List (Nat × Option (LayerTypeR δ))
  lt_meta : List (Option (LayerTypeR δ))
deriving DecidableEq

/-- `LayerRegistry::new()` (the commented-out pre-registration block in the
source is dead code and does not run). -/
def LayerRegistry.new (δ : Type) : LayerRegistry δ :=
  { decoders_by_layer_name := []
    lt_meta_map := []
    lt_meta := List.replicate MAX_LAYER_TYPE none }

/-- Outcome of `register_layer`: the source's only exit points are
`Ok(())` (here carrying the updated registry state) and `panic!`; no `Err`
value is ever constructed even though the return type allows one. -/
inductive RegisterOutcome (δ : Type) where
  | ok (r : LayerRegistry δ)
  | panic (msg : String)
deriving DecidableEq

/-- Sequencing helper: feed the registry of a successful outcome into the
next registration step, propagating a panic. -/
def RegisterOutcome.andThen {δ : Type} :
    RegisterOutcome δ → (LayerRegistry δ → RegisterOutcome δ) → RegisterOutcome δ
  | .ok r, f => f r
  | .panic msg, _ => .panic msg

/-- `LayerRegistry::override_layer_type(num, meta)`: writes the metadata
into the dense array when `0 <= num && num < MAX_LAYER_TYPE`, else into the
overflow map; then inserts the decoder under the layer's name; returns
`num as LayerTypeID`. -/
def override_layer_type {δ : Type} (r : LayerRegistry δ) (num : Int)
    (meta : LayerTypeR δ) : LayerRegistry δ × Nat :=
  let r1 :=
    if 0 ≤ num ∧ num < (MAX_LAYER_TYPE : Int) then
      { r with lt_meta := r.lt_meta.set num.toNat (some meta) }
    else
      { r with lt_meta_map := (asUsize num, some meta) :: r.lt_meta_map }
  ({ r1 with decoders_by_layer_name := (meta.name, meta.decoder) :: r1.decoders_by_layer_name },
    asUsize num)

/-- `LayerRegistry::register_layer(meta, num)`: checks the dense array (for
`0 <= num < MAX_LAYER_TYPE`) or the overflow map (otherwise) and executes
`panic!("Layer type already exists")` when the id is already bound; in the
map branch `contains_key` followed by `get_mut(..).is_some()` always panics
whenever the key is present.  Otherwise it calls `override_layer_type` and
returns `Ok`. -/
def register_layer {δ : Type} (r : LayerRegistry δ) (meta : LayerTypeR δ)
    (num : Int) : RegisterOutcome δ :=
  let n_num := asUsize num
  if 0 ≤ num ∧ num < (MAX_LAYER_TYPE : Int) then
    if (r.lt_meta.getD num.toNat none).isSome then .panic "Layer type already exists"
    else .ok (override_layer_type r num meta).1
  else
    if (r.lt_meta_map.lookup n_num).isSome then .panic "Layer type already exists"
    else .ok (override_layer_type r num meta).1

/-- Whether the requested id `num` is already bound in the registry, read
off the same storage cell that `register_layer` consults. -/
def LayerRegistry.isBound {δ : Type} (r : LayerRegistry δ) (num : Int) : Bool :=
  if 0 ≤ num ∧ num < (MAX_LAYER_TYPE : Int) then
    (r.lt_meta.getD num.toNat none).isSome
  else
    (r.lt_meta_map.lookup (asUsize num)).isSome

/-- C9 (counterexample): the claim says registering an already-bound id
fails by RETURNING an AlreadyRegistered error to the caller.  The source
never constructs an error return: registering id 5 (dense range) twice, or
id 3000 (overflow map range) twice, ends in `panic!("Layer type already
exists")` — a panic, not an `Err` handed to the caller (the model's
`RegisterOutcome` has no error-return constructor because the source's only
exits are `Ok` and `panic!`). -/
theorem c9_duplicate_registration_panics_counterexample :
    (register_layer (LayerRegistry.new Unit) ⟨5, "L5", ()⟩ 5).andThen
        (fun r1 => register_layer r1 ⟨5, "L5", ()⟩ 5) =
      .panic "Layer type already exists" ∧
    (register_layer (LayerRegistry.new Unit) ⟨3000, "L3000", ()⟩ 3000).andThen
        (fun r1 => register_layer r1 ⟨3000, "L3000", ()⟩ 3000) =
      .panic "Layer type already exists" := by
  constructor
  · rfl
  · rfl

/-- C9 (amended): registering a layer type whose requested id is already
bound — whether the id lies in the dense range below 2000 or in the
overflow map — makes `register_layer` panic with "Layer type already
exists" instead of returning an AlreadyRegistered error; when the id is
unbound the registration succeeds via `override_layer_type`. -/
theorem c9_register_layer_bound_behaviour {δ : Type} (r : LayerRegistry δ)
    (meta : LayerTypeR δ) (num : Int) (h : r.isBound num = true) :
    register_layer r meta num = .panic "Layer type already exists" := by
  unfold register_layer
  unfold LayerRegistry.isBound at h
  by_cases hr : 0 ≤ num ∧ num < (MAX_LAYER_TYPE : Int)
  · rw [if_pos hr] at h
    rw [if_pos hr, if_pos h]
  · rw [if_neg hr] at h
    rw [if_neg hr, if_pos h]

/-- Witness for `c9_register_layer_bound_behaviour` at concrete inputs in
both storage ranges. -/
theorem c9_register_layer_bound_behaviour_witness :
    register_layer ((override_layer_type (LayerRegistry.new Unit) 5 ⟨5, "L5", ()⟩).1)
        ⟨5, "L5", ()⟩ 5 = .panic "Layer type already exists" ∧
    register_layer ((override_layer_type (LayerRegistry.new Unit) 3000 ⟨3000, "L3000", ()⟩).1)
        ⟨3000, "L3000", ()⟩ 3000 = .panic "Layer type already exists" := by
  constructor
  · exact c9_register_layer_bound_behaviour _ _ _ (by decide)
  · exact c9_register_layer_bound_behaviour _ _ _ (by decide)

/-! ## Layers, decode errors and the EagerPacket builder —
`src/rtpacket/base/*.rs`, `src/rtpacket/decode/*.rs`,
`src/rtpacket/packet/eagerpacket.rs`

A `dyn Layer` value is modelled by the record of its capability-method
results: `layer_type()` (`none` models a layer whose `layer_type()` would
`unwrap` a `None` and panic, as the `DecodeFailure` built by
`add_final_decode_error` does), `layer_contents()`, `layer_payload()` and
`verify_checksum()`.  The decoder function pointer inside `LayerType` is
not part of this record (it is only ever called through the registry). -/

structure LayerTypeM where
  id : Nat
  name : String
deriving DecidableEq

/-- `ChecksumVerificationResult` — `src/rtpacket/checksum/mod.rs`. -/
structure ChecksumVerificationResult where
  valid : Bool
  correct : Nat
  actual : Nat
deriving DecidableEq

/-- `DecodeError` — `src/rtpacket/error/decodeerror.rs`; the backtrace and
chained source are diagnostic only and not modelled.  `NoLastLayerError` is
a type alias of `DecodeError` in the source. -/
structure DecodeErrorM where
  message : String
deriving DecidableEq

/-- `PacketError` — `src/rtpacket/error/mod.rs`, carrying the wrapped
error's message. -/
inductive PacketErrorM where
  | decode (msg : String)
  | methodNotImplemented (msg : String)
  | verifyChecksum (msg : String)
deriving DecidableEq

instance exceptDecEq {ε α : Type} [DecidableEq ε] [DecidableEq α] :
    DecidableEq (Except ε α) := fun a b =>
  match a, b with
  | .error e1, .error e2 =>
    if h : e1 = e2 then isTrue (by rw [h]) else isFalse (by intro hh; cases hh; exact h rfl)
  | .ok v1, .ok v2 =>
    if h : v1 = v2 then isTrue (by rw [h]) else isFalse (by intro hh; cases hh; exact h rfl)
  | .error _, .ok _ => isFalse (by intro hh; cases hh)
  | .ok _, .error _ => isFalse (by intro hh; cases hh)

/-- A decoded layer, as the packet observes it through the `Layer`
capability surface. -/
structure LayerM where
  layer_type : Option LayerTypeM
  contents : Option (List Nat)
  payload : Option (List Nat)
  verify : Except PacketErrorM ChecksumVerificationResult
deriving DecidableEq

/-- `DecodeOptions` — `src/rtpacket/packet/decodeoptions.rs`. -/
structure DecodeOptions where
  lazy : Bool
  no_copy : Bool
  pool : Bool
  skip_decode_recovery : Bool
  decode_streams_as_datagrams : Bool
deriving DecidableEq

/-- `DecodeOptions::default()`. -/
def DecodeOptions.default : DecodeOptions :=
  { lazy := false, no_copy := false, pool := false,
    skip_decode_recovery := false, decode_streams_as_datagrams := false }

/-- `EagerPacket` — `src/rtpacket/packet/eagerpacket.rs`.  Of the
`PacketMetadata` only the `truncated` flag is behaviourally relevant (the
timestamp and lengths are diagnostic); the other fields are carried as in
the source. -/
structure EagerPacket where
  data : List Nat
  initial_layers : List LayerM
  layers : List LayerM
  last : Option LayerM
  truncated : Bool
  decode_options : DecodeOptions
  link : Option LayerM
  network : Option LayerM
  transport : Option LayerM
  application : Option LayerM
  failure : Option LayerM
deriving DecidableEq

/-- `EagerPacket::new(data, opts)`. -/
def EagerPacket.new (data : List Nat) (opts : DecodeOptions) : EagerPacket :=
  { data := data, initial_layers := [], layers := [], last := none,
    truncated := false, decode_options := opts, link := none,
    network := none, transport := none, application := none, failure := none }

/-- `PacketBuilder::add_layer`: pushes the layer and updates `last`. -/
def EagerPacket.add_layer (b : EagerPacket) (l : LayerM) : EagerPacket :=
  { b with layers := b.layers ++ [l], last := some l }

/-- `PacketBuilder::set_link_layer`: first call wins. -/
def EagerPacket.set_link_layer (b : EagerPacket) (l : LayerM) : EagerPacket :=
  if b.link.isNone then { b with link := some l } else b

/-- `PacketBuilder::set_network_layer`: first call wins. -/
def EagerPacket.set_network_layer (b : EagerPacket) (l : LayerM) : EagerPacket :=
  if b.network.isNone then { b with network := some l } else b

/-- `PacketBuilder::set_transport_layer`: first call wins. -/
def EagerPacket.set_transport_layer (b : EagerPacket) (l : LayerM) : EagerPacket :=
  if b.transport.isNone then { b with transport := some l } else b

/-- `PacketBuilder::set_application_layer`: first call wins. -/
def EagerPacket.set_application_layer (b : EagerPacket) (l : LayerM) : EagerPacket :=
  if b.application.isNone then { b with application := some l } else b

/-- `PacketBuilder::set_error_layer`: first call wins. -/
def EagerPacket.set_error_layer (b : EagerPacket) (l : LayerM) : EagerPacket :=
  if b.failure.isNone then { b with failure := some l } else b

/-- `PacketBuilder::layers_count`. -/
def EagerPacket.layers_count (b : EagerPacket) : Nat := b.layers.length

/-- A decode function `fn(Rc<[u8]>, Rc<RefCell<dyn PacketBuilder>>) ->
Result<(), DecodeError>` — `src/rtpacket/decode/mod.rs`.  The builder cell
handed to the function is modelled by value; the function's result carries
the final state of that cell (`.ok`) or the decode error (`.error`). -/
def DecodeFunc : Type := List Nat → EagerPacket → Except DecodeErrorM EagerPacket

/-- `EagerPacket::next_decoder(next)` — `src/rtpacket/packet/eagerpacket.rs`
lines 108–133.  Fails with `NoLastLayerError` when no layer was added;
returns `Ok` untouched when the last layer's payload is `None` or empty;
otherwise calls `next(payload, Rc::new(RefCell::new(self.clone())))` —
note the CLONE: the invoked decoder receives a copy of the builder, and
the copy's final state (the `.ok` payload of `next`) is dropped by the
source, so on success the original builder is returned unchanged. -/
def EagerPacket.next_decoder (b : EagerPacket) (next : DecodeFunc) :
    Except DecodeErrorM EagerPacket :=
  match b.last with
  | none => .error ⟨"next_decoder called, but no last layers found"⟩
  | some last_layer =>
    match last_layer.payload with
    | none => .ok b
    | some payload =>
      if payload.isEmpty then .ok b
      else
        match next payload b with
        | .ok _ => .ok b
        | .error e => .error e

/-! ### Payload and Fragment — `src/rtpacket/base/payload.rs`,
`src/rtpacket/base/fragment.rs` -/

structure Payload where
  layer_type : LayerTypeM
  in_data : Option (List Nat)
deriving DecidableEq

/-- `Payload::new()`. -/
def Payload.new : Payload := ⟨⟨2, "Payload"⟩, none⟩

/-- `Payload::new_from(data)`. -/
def Payload.new_from (data : List Nat) : Payload := ⟨⟨2, "Payload"⟩, some data⟩

/-- `impl Layer for Payload`: `layer_payload` always returns `None`. -/
def Payload.layer_payload (_ : Payload) : Option (List Nat) := none

/-- `impl Layer for Payload`: `layer_contents` returns `in_data`. -/
def Payload.layer_contents (p : Payload) : Option (List Nat) := p.in_data

/-- `impl Layer for Payload`: `verify_checksum` returns a wrapped
`DecodeError` (the `PacketError::Decode` variant). -/
def Payload.verify_checksum (_ : Payload) :
    Except PacketErrorM ChecksumVerificationResult :=
  .error (.decode "Payload layer does not have a checksum")

/-- The `Rc<dyn Layer>` view of a `Payload`. -/
def Payload.toLayer (p : Payload) : LayerM :=
  { layer_type := some p.layer_type, contents := p.layer_contents,
    payload := p.layer_payload, verify := p.verify_checksum }

structure Fragment where
  layer_type : LayerTypeM
  in_data : Option (List Nat)
deriving DecidableEq

/-- `Fragment::new()`. -/
def Fragment.new : Fragment := ⟨⟨3, "DecodeFragment"⟩, none⟩

/-- `Fragment::new_from(data)`. -/
def Fragment.new_from (data : List Nat) : Fragment := ⟨⟨3, "DecodeFragment"⟩, some data⟩

/-- `impl Layer for Fragment`: `layer_payload` always returns `None`. -/
def Fragment.layer_payload (_ : Fragment) : Option (List Nat) := none

/-- `impl Layer for Fragment`: `layer_contents` returns `in_data`. -/
def Fragment.layer_contents (f : Fragment) : Option (List Nat) := f.in_data

/-- The `Rc<dyn Layer>` view of a `Fragment`.  The draft sources give
`Fragment` no `verify_checksum` implementation; the generic
not-implemented outcome is used here; no claim depends on it. -/
def Fragment.toLayer (f : Fragment) : LayerM :=
  { layer_type := some f.layer_type, contents := f.layer_contents,
    payload := f.layer_payload,
    verify := .error (.methodNotImplemented "layer does not verify checksum") }

/-! ### DecodeFailure and the failure policy —
`src/rtpacket/decode/decodefailure.rs`, `src/rtpacket/packet/eagerpacket.rs` -/

/-- `DecodeFailure` — `src/rtpacket/decode/decodefailure.rs`. -/
structure DecodeFailure where
  layer_type : Option LayerTypeM
  in_data : Option (List Nat)
  err : DecodeErrorM
  stack : List Nat
deriving DecidableEq

/-- The `Rc<dyn Layer>` view of a `DecodeFailure`: `layer_contents` is
`in_data`, `layer_payload` is `None`, `verify_checksum` is
`MethodNotImplementedError`; `layer_type()` unwraps the option (panics on
`None`), which the record keeps unevaluated. -/
def DecodeFailure.toLayer (df : DecodeFailure) : LayerM :=
  { layer_type := df.layer_type, contents := df.in_data, payload := none,
    verify := .error (.methodNotImplemented "layer does not verify checksum") }

/-- `EagerPacket::add_final_decode_error(err)` — eagerpacket.rs lines
348–363: builds a `DecodeFailure` with `layer_type: None`, `in_data` the
last layer's payload (or the whole packet data when no layer was added),
appends it with `add_layer` and registers it with `set_error_layer`. -/
def EagerPacket.add_final_decode_error (b : EagerPacket) (err : DecodeErrorM) :
    EagerPacket :=
  let in_data : Option (List Nat) :=
    match b.last with
    | some last => last.payload
    | none => some b.data
  let l := DecodeFailure.toLayer ⟨none, in_data, err, []⟩
  (b.add_layer l).set_error_layer l

/-- `EagerPacket::recover_decode_error()` — eagerpacket.rs lines 365–370:
when `skip_decode_recovery` is not set, appends the final decode error
layer (with a fresh `DecodeError::new("recover decode error", None)`);
otherwise does nothing. -/
def EagerPacket.recover_decode_error (b : EagerPacket) : EagerPacket :=
  if !b.decode_options.skip_decode_recovery then
    b.add_final_decode_error ⟨"recover decode error"⟩
  else b

/-- Modelled from the spec: the packet-level decode driver that surrounds
each decode-function call is missing from `src/` (`new_packet` in
`src/rtpacket/packet/mod.rs` and `EagerPacket::initial_decode` are stubs);
only its callees `recover_decode_error` / `add_final_decode_error` exist.
Per §4.2 "Failure policy", the driver catches a decode function's `Err`:
with `skip_decode_recovery` set it propagates the error to the decode
call's caller; otherwise it captures the failure on the packet (via the
source's `recover_decode_error`) and the decode call returns success.
`b` is the builder state when the decode function returned and `outcome`
the error it returned, if any. -/
def decode_call (b : EagerPacket) (outcome : Option DecodeErrorM) :
    Except DecodeErrorM EagerPacket :=
  match outcome with
  | none => .ok b
  | some e =>
    if b.decode_options.skip_decode_recovery then .error e
    else .ok b.recover_decode_error

/-- The `DecodeFailure` layer `recover_decode_error` appends to `b`. -/
def failLayerOf (b : EagerPacket) : LayerM :=
  DecodeFailure.toLayer
    ⟨none,
      (match b.last with
       | some last => last.payload
       | none => some b.data),
      ⟨"recover decode error"⟩, []⟩

/-- C1: FALSE of the code.  The claim (and the spec) say `next_decoder`
recurses "with the same builder", so every layer the invoked decoder adds
is observable in the original builder afterwards.  The source instead hands
the decoder `Rc::new(RefCell::new(self.clone()))` and drops the clone: for
the concrete builder `b0` (one layer whose payload is `[1]`) and the
decoder `d0` that adds a Payload layer, the decoder run on the handed
builder ends with 2 layers, yet `next_decoder` returns the original `b0`
unchanged with its single layer, losing the addition.  This contradicts
the `PacketBuilder` trait contract ("used by layer decoders to store the
layers they've decoded") and the repository's own decoder tests, which
observe `layers_count()` grow on the handed builder. -/
theorem c1_next_decoder_loses_decoder_additions :
    (let b0 : EagerPacket :=
      (EagerPacket.new [1] DecodeOptions.default).add_layer
        { layer_type := some ⟨100, "L"⟩, contents := some [1], payload := some [1],
          verify := Except.error (PacketErrorM.methodNotImplemented "m") }
     let d0 : DecodeFunc := fun bytes b => .ok (b.add_layer (Payload.new_from bytes).toLayer)
     b0.next_decoder d0 = .ok b0 ∧
     b0.layers_count = 1 ∧
     (d0 [1] b0).map EagerPacket.layers_count = .ok 2) := by
  exact ⟨rfl, rfl, rfl⟩

/-- C2: when a decode function returns an error and `skip_decode_recovery`
is not set, the packet appends exactly one DecodeFailure layer whose
contents are the not-yet-consumed bytes (the last layer's payload, or the
whole packet data when no layer was added), registers it as the error-layer
slot, and the decode call returns success; with `skip_decode_recovery` set
the error is propagated and no DecodeFailure layer is appended
(`recover_decode_error` leaves the builder untouched).  The decode-call
driver is spec-modelled (`decode_call`); the capture itself is the source's
`recover_decode_error` / `add_final_decode_error`. -/
theorem c2_decode_failure_policy (b : EagerPacket) (e : DecodeErrorM)
    (hslot : b.failure = none) :
    (b.decode_options.skip_decode_recovery = false →
      decode_call b (some e) = .ok b.recover_decode_error ∧
      b.recover_decode_error.layers = b.layers ++ [failLayerOf b] ∧
      b.recover_decode_error.failure = some (failLayerOf b) ∧
      (failLayerOf b).contents =
        (match b.last with
         | some last => last.payload
         | none => some b.data)) ∧
    (b.decode_options.skip_decode_recovery = true →
      decode_call b (some e) = .error e ∧
      b.recover_decode_error = b) := by
  constructor
  · intro h
    refine ⟨?_, ?_, ?_, rfl⟩
    · simp [decode_call, h]
    · simp [EagerPacket.recover_decode_error, h, EagerPacket.add_final_decode_error,
        EagerPacket.add_layer, EagerPacket.set_error_layer, hslot, failLayerOf]
    · simp [EagerPacket.recover_decode_error, h, EagerPacket.add_final_decode_error,
        EagerPacket.add_layer, EagerPacket.set_error_layer, hslot, failLayerOf]
  · intro h
    refine ⟨?_, ?_⟩
    · simp [decode_call, h]
    · simp [EagerPacket.recover_decode_error, h]

/-- Witness for `c2_decode_failure_policy`: both branches at concrete
builders (fresh packet over data `[9]`; recovery on the left, propagation
on the right). -/
theorem c2_decode_failure_policy_witness :
    (decode_call (EagerPacket.new [9] DecodeOptions.default) (some ⟨"boom"⟩) =
        .ok (EagerPacket.new [9] DecodeOptions.default).recover_decode_error ∧
      (EagerPacket.new [9] DecodeOptions.default).recover_decode_error.layers =
        (EagerPacket.new [9] DecodeOptions.default).layers ++
          [failLayerOf (EagerPacket.new [9] DecodeOptions.default)] ∧
      (EagerPacket.new [9] DecodeOptions.default).recover_decode_error.failure =
        some (failLayerOf (EagerPacket.new [9] DecodeOptions.default)) ∧
      (failLayerOf (EagerPacket.new [9] DecodeOptions.default)).contents = some [9]) ∧
    (decode_call
        (EagerPacket.new [9]
          { DecodeOptions.default with skip_decode_recovery := true }) (some ⟨"boom"⟩) =
        .error ⟨"boom"⟩ ∧
      (EagerPacket.new [9]
          { DecodeOptions.default with skip_decode_recovery := true }).recover_decode_error =
        EagerPacket.new [9] { DecodeOptions.default with skip_decode_recovery := true }) := by
  constructor
  · exact (c2_decode_failure_policy _ ⟨"boom"⟩ rfl).1 rfl
  · exact (c2_decode_failure_policy _ ⟨"boom"⟩ rfl).2 rfl

/-- C5: `next_decoder` on a builder with no layer yet fails with the
NoLastLayerError "next_decoder called, but no last layers found"; when the
last layer's payload is absent (`None`) or empty it returns success with
the builder unchanged and without invoking any decoder (the result is the
same for EVERY decode function `next`, including layer-adding ones). -/
theorem c5_next_decoder_degenerate_cases (b : EagerPacket) (next : DecodeFunc) :
    (b.last = none →
      b.next_decoder next = .error ⟨"next_decoder called, but no last layers found"⟩) ∧
    (∀ l, b.last = some l → l.payload = none → b.next_decoder next = .ok b) ∧
    (∀ l, b.last = some l → l.payload = some [] → b.next_decoder next = .ok b) := by
  refine ⟨?_, ?_, ?_⟩
  · intro h
    simp [EagerPacket.next_decoder, h]
  · intro l hl hp
    simp [EagerPacket.next_decoder, hl, hp]
  · intro l hl hp
    simp [EagerPacket.next_decoder, hl, hp]

/-- Witness for `c5_next_decoder_degenerate_cases` at concrete builders:
a fresh packet, a builder whose last layer has payload `None`, and one
whose last layer has payload `[]`, each against a decoder that adds a
layer. -/
theorem c5_next_decoder_degenerate_cases_witness :
    ((EagerPacket.new [1, 2, 3] DecodeOptions.default).next_decoder
        (fun bytes b => .ok (b.add_layer (Payload.new_from bytes).toLayer)) =
      .error ⟨"next_decoder called, but no last layers found"⟩) ∧
    (((EagerPacket.new [1, 2, 3] DecodeOptions.default).add_layer
          (Payload.new_from [1, 2, 3]).toLayer).next_decoder
        (fun bytes b => .ok (b.add_layer (Payload.new_from bytes).toLayer)) =
      .ok ((EagerPacket.new [1, 2, 3] DecodeOptions.default).add_layer
          (Payload.new_from [1, 2, 3]).toLayer)) ∧
    (((EagerPacket.new [1, 2, 3] DecodeOptions.default).add_layer
          { layer_type := some ⟨100, "L"⟩, contents := some [1, 2, 3],
            payload := some [], verify := Except.error (PacketErrorM.methodNotImplemented "m") }).next_decoder
        (fun bytes b => .ok (b.add_layer (Payload.new_from bytes).toLayer)) =
      .ok ((EagerPacket.new [1, 2, 3] DecodeOptions.default).add_layer
          { layer_type := some ⟨100, "L"⟩, contents := some [1, 2, 3],
            payload := some [], verify := Except.error (PacketErrorM.methodNotImplemented "m") })) := by
  refine ⟨?_, ?_, ?_⟩
  · exact (c5_next_decoder_degenerate_cases _ _).1 rfl
  · exact (c5_next_decoder_degenerate_cases _ _).2.1 _ rfl rfl
  · exact (c5_next_decoder_degenerate_cases _ _).2.2 _ rfl rfl

/-- C10: `layer_payload()` of every `Payload` and every `Fragment` —
constructed empty or from data — is `None`; consequently, whenever the
last added layer of a builder is a Payload or a Fragment, `next_decoder`
returns success without invoking any decoder (same result for every
decode function) and the chain terminates. -/
theorem c10_payload_fragment_terminate_chain :
    (∀ d, (Payload.new_from d).layer_payload = none) ∧
    Payload.new.layer_payload = none ∧
    (∀ d, (Fragment.new_from d).layer_payload = none) ∧
    Fragment.new.layer_payload = none ∧
    (∀ (b : EagerPacket) (p : Payload) (next : DecodeFunc),
      b.last = some p.toLayer → b.next_decoder next = .ok b) ∧
    (∀ (b : EagerPacket) (f : Fragment) (next : DecodeFunc),
      b.last = some f.toLayer → b.next_decoder next = .ok b) := by
  refine ⟨fun d => rfl, rfl, fun d => rfl, rfl, ?_, ?_⟩
  · intro b p next h
    simp [EagerPacket.next_decoder, h, Payload.toLayer, Payload.layer_payload]
  · intro b f next h
    simp [EagerPacket.next_decoder, h, Fragment.toLayer, Fragment.layer_payload]

/-- Witness for `c10_payload_fragment_terminate_chain`: concrete builders
whose last layer is `Payload::new_from([1,2,3])` resp.
`Fragment::new_from([1,2,3])`, against a layer-adding decoder. -/
theorem c10_payload_fragment_terminate_chain_witness :
    (((EagerPacket.new [1, 2, 3] DecodeOptions.default).add_layer
          (Payload.new_from [1, 2, 3]).toLayer).next_decoder
        (fun bytes b => .ok (b.add_layer (Payload.new_from bytes).toLayer)) =
      .ok ((EagerPacket.new [1, 2, 3] DecodeOptions.default).add_layer
          (Payload.new_from [1, 2, 3]).toLayer)) ∧
    (((EagerPacket.new [1, 2, 3] DecodeOptions.default).add_layer
          (Fragment.new_from [1, 2, 3]).toLayer).next_decoder
        (fun bytes b => .ok (b.add_layer (Payload.new_from bytes).toLayer)) =
      .ok ((EagerPacket.new [1, 2, 3] DecodeOptions.default).add_layer
          (Fragment.new_from [1, 2, 3]).toLayer)) := by
  constructor
  · exact c10_payload_fragment_terminate_chain.2.2.2.2.1 _ _ _ rfl
  · exact c10_payload_fragment_terminate_chain.2.2.2.2.2 _ _ _ rfl

/-! ### Checksum verification walk — `src/rtpacket/packet/eagerpacket.rs`
lines 249–290 -/

/-- `ChecksumMismatch` — `src/rtpacket/checksum/mod.rs`. -/
structure ChecksumMismatch where
  result : ChecksumVerificationResult
  layer : LayerM
  layer_index : Nat
deriving DecidableEq

/-- `VerifyChecksumError` is a message plus optional source in the source
code; its two construction sites inside `verify_checksums` are modelled as
the two variants, carrying the data interpolated into the message:
`couldNotVerify` is `"could not verify checksum for layer {i+1}
({layer_type}), {err}"` with the wrapped cause as source, and
`mismatchesFound` is `"Checksum mismatches found"` with no source. -/
inductive VerifyChecksumErrorM where
  | couldNotVerify (layerNumber : Nat) (layer_type : Option LayerTypeM) (cause : String)
  | mismatchesFound
deriving DecidableEq

/-- The `for (i, layer) in layers.iter().enumerate()` loop of
`verify_checksums`: a valid-checksum result with `valid == false` is pushed
onto the mismatch list; a `MethodNotImplemented` error is skipped (the
source merely prints); a `VerifyChecksum` error aborts the walk with an
error naming layer number `i + 1`; any other `PacketError` falls into the
source's `_ => {}` arm and is silently skipped. -/
def verifyChecksumsLoop :
    List LayerM → Nat → List ChecksumMismatch →
      Except VerifyChecksumErrorM (List ChecksumMismatch)
  | [], _, mismatches => .ok mismatches
  | l :: rest, i, mismatches =>
    match l.verify with
    | .ok cvr =>
      if !cvr.valid then
        verifyChecksumsLoop rest (i + 1) (mismatches ++ [⟨cvr, l, i⟩])
      else
        verifyChecksumsLoop rest (i + 1) mismatches
    | .error (.methodNotImplemented _) => verifyChecksumsLoop rest (i + 1) mismatches
    | .error (.verifyChecksum cause) => .error (.couldNotVerify (i + 1) l.layer_type cause)
    | .error (.decode _) => verifyChecksumsLoop rest (i + 1) mismatches

/-- `EagerPacket::verify_checksums()`: runs the walk from an empty mismatch
list, then `if mismatches.is_empty() { Ok(mismatches) } else
{ Err(VerifyChecksumError::new("Checksum mismatches found", None)) }`. -/
def EagerPacket.verify_checksums (b : EagerPacket) :
    Except VerifyChecksumErrorM (List ChecksumMismatch) :=
  match verifyChecksumsLoop b.layers 0 [] with
  | .error e => .error e
  | .ok mismatches =>
    if mismatches.isEmpty then .ok mismatches else .error .mismatchesFound

/-- Spec-side: the first layer (in decode order, with its position) whose
`verify_checksum` reports a hard verification failure, together with the
failure message. -/
def firstHardFailure : List LayerM → Nat → Option (Nat × LayerM × String)
  | [], _ => none
  | l :: rest, i =>
    match l.verify with
    | .error (.verifyChecksum cause) => some (i, l, cause)
    | _ => firstHardFailure rest (i + 1)

/-- Spec-side: the mismatches (computed-but-invalid checksum results) of a
layer list, in decode order with their positions. -/
def collectMismatches : List LayerM → Nat → List ChecksumMismatch
  | [], _ => []
  | l :: rest, i =>
    match l.verify with
    | .ok cvr =>
      if !cvr.valid then ⟨cvr, l, i⟩ :: collectMismatches rest (i + 1)
      else collectMismatches rest (i + 1)
    | _ => collectMismatches rest (i + 1)

theorem verifyChecksumsLoop_characterization (ls : List LayerM) (i : Nat)
    (acc : List ChecksumMismatch) :
    verifyChecksumsLoop ls i acc =
      match firstHardFailure ls i with
      | some (j, l, cause) => .error (.couldNotVerify (j + 1) l.layer_type cause)
      | none => .ok (acc ++ collectMismatches ls i) := by
  induction ls generalizing i acc with
  | nil => simp [verifyChecksumsLoop, firstHardFailure, collectMismatches]
  | cons l rest ih =>
    cases hv : l.verify with
    | ok cvr =>
      cases hvalid : cvr.valid with
      | false =>
        simp only [verifyChecksumsLoop, hv, hvalid, Bool.not_false, if_true, ih,
          firstHardFailure, collectMismatches]
        cases firstHardFailure rest (i + 1) with
        | none => simp
        | some x => rfl
      | true =>
        simp only [verifyChecksumsLoop, hv, hvalid, Bool.not_true, Bool.false_eq_true,
          if_false, ih, firstHardFailure, collectMismatches]
    | error pe =>
      cases pe with
      | decode msg => simp [verifyChecksumsLoop, hv, ih, firstHardFailure, collectMismatches]
      | methodNotImplemented msg =>
        simp [verifyChecksumsLoop, hv, ih, firstHardFailure, collectMismatches]
      | verifyChecksum cause => simp [verifyChecksumsLoop, hv, firstHardFailure]

/-- C3 (counterexample): the claim says computed-but-mismatching checksums
are collected and RETURNED as the result list (not an error).  For a packet
whose single layer reports a computed, invalid checksum, the source aborts
with `Err(VerifyChecksumError::new("Checksum mismatches found", None))`
instead of returning the one-element mismatch list. -/
theorem c3_mismatch_list_returned_as_error_counterexample :
    (let lbad : LayerM :=
      { layer_type := some ⟨100, "L"⟩, contents := some [1], payload := none,
        verify := Except.ok ⟨false, 10, 20⟩ }
     let b : EagerPacket :=
      (EagerPacket.new [1] DecodeOptions.default).add_layer lbad
     b.verify_checksums = .error .mismatchesFound ∧
     b.verify_checksums ≠ .ok [⟨⟨false, 10, 20⟩, lbad, 0⟩]) := by
  exact ⟨rfl, by decide⟩

/-- C3 (amended): `verify_checksums` walks the layers in decode order; a
layer reporting checksum verification as unsupported is skipped without
error; the first hard verification failure aborts the walk with an error
identifying the failing layer (by its 1-based position); layers whose
checksum is computed but mismatching are collected, but a NON-EMPTY
collection makes the call return the error "Checksum mismatches found"
rather than the collected list — the successful result is always the empty
list, meaning every layer with a checksum passed.  (Layers whose
`verify_checksum` reports any other `PacketError` fall into the source's
catch-all arm and are skipped as well.) -/
theorem c3_verify_checksums_characterization (b : EagerPacket) :
    b.verify_checksums =
      match firstHardFailure b.layers 0 with
      | some (j, l, cause) => .error (.couldNotVerify (j + 1) l.layer_type cause)
      | none =>
        if collectMismatches b.layers 0 = [] then .ok []
        else .error .mismatchesFound := by
  unfold EagerPacket.verify_checksums
  rw [verifyChecksumsLoop_characterization]
  cases firstHardFailure b.layers 0 with
  | none =>
    simp only [List.nil_append]
    cases h : collectMismatches b.layers 0 with
    | nil => simp
    | cons x xs => simp
  | some x => rfl

/-! ## SerializeBuffer and layer serialization — `src/rtpacket/writer/mod.rs`

`SerializeBuffer` owns a `Vec<u8>` whose contents are never inspected by
the claims (prepended/appended windows are uninitialized until the caller
overwrites them), so the vector is modelled by its length and capacity.
`Vec::new()` has capacity 0; `vec![0u8; n]` and `slice.to_owned()` allocate
exactly the length.  Slice-indexing and `copy_from_slice` length mismatches
panic in Rust and yield `none` here.  (`append_bytes` is not modelled: no
claim touches it, and its capacity growth goes through `Vec::reserve`,
whose exact allocation is unspecified.) -/

structure SerializeBuffer where
  dataLen : Nat
  dataCap : Nat
  start : Nat
  prepended : Nat
  appended : Nat
  layers : List LayerTypeM
deriving DecidableEq

/-- `SerializeBuffer::new()`. -/
def SerializeBuffer.new : SerializeBuffer :=
  { dataLen := 0, dataCap := 0, start := 0, prepended := 0, appended := 0, layers := [] }

/-- Length of `bytes()`, i.e. of `&self.data[self.start..]`; `none` models
the slice panic when `start` exceeds the vector length. -/
def SerializeBuffer.bytesLen (b : SerializeBuffer) : Option Nat :=
  if b.start ≤ b.dataLen then some (b.dataLen - b.start) else none

/-- `SerializeBuffer::prepend_bytes(num)` — writer/mod.rs lines 218–245.
When the left margin `start` is insufficient: `to_prepend` is
`max(self.prepended, num)`; `self.prepended += to_prepend`; a fresh
zero-vector of length `capacity + to_prepend` is allocated; the old window
is copied to offset `start + to_prepend` (panic unless the slice lengths
agree); `self.start += new_start`; the new vector is truncated to
`to_prepend + old_len` and re-owned (capacity = that length).  In both
branches `self.start -= num` concludes (usize underflow yields `none`). -/
def SerializeBuffer.prepend_bytes (b : SerializeBuffer) (num : Nat) :
    Option SerializeBuffer :=
  if b.start < num then
    let to_prepend := if b.prepended < num then num else b.prepended
    let prepended := b.prepended + to_prepend
    let length := b.dataCap + to_prepend
    let new_start := b.start + to_prepend
    if b.start ≤ b.dataLen ∧ new_start ≤ length ∧
        length - new_start = b.dataLen - b.start then
      let start := b.start + new_start
      if to_prepend + b.dataLen ≤ length then
        let b1 : SerializeBuffer :=
          { b with
            dataLen := to_prepend + b.dataLen, dataCap := to_prepend + b.dataLen,
            prepended := prepended, start := start }
        if num ≤ b1.start then some { b1 with start := b1.start - num } else none
      else none
    else none
  else
    some { b with start := b.start - num }

/-- `SerializeBuffer::clear()` — writer/mod.rs lines 273–277:
`self.start = self.prepended`, the vector is truncated to the new `start`
and re-owned, and the trail is emptied; the prepend margin and the
`prepended`/`appended` growth counters survive. -/
def SerializeBuffer.clear (b : SerializeBuffer) : Option SerializeBuffer :=
  if b.prepended ≤ b.dataLen then
    some { b with
            start := b.prepended, dataLen := b.prepended,
            dataCap := b.prepended, layers := [] }
  else none

/-- `SerializeBuffer::push_layer(layer_type)`. -/
def SerializeBuffer.push_layer (b : SerializeBuffer) (lt : LayerTypeM) : SerializeBuffer :=
  { b with layers := b.layers ++ [lt] }

/-- `SerializeOptions` — `src/rtpacket/writer/mod.rs`. -/
structure SerializeOptions where
  fix_lengths : Bool
  compute_checksums : Bool
deriving DecidableEq

/-- A `Box<dyn SerializableLayer>`: its `serialize_to(buffer, opts)`
(result carries the final buffer state, or the boxed error's message) and
its `layer_type()`. -/
structure SerializableLayer where
  serialize_to : SerializeBuffer → SerializeOptions → Except String SerializeBuffer
  layer_type : LayerTypeM

/-- The `for layer in layers.iter().rev()` loop of `serialize_layers`:
`layer.serialize_to(buffer, options)?; buffer.push_layer(layer.layer_type())`.
The argument list is already reversed. -/
def serializeLoop (options : SerializeOptions) :
    SerializeBuffer → List SerializableLayer → Except String SerializeBuffer
  | b, [] => .ok b
  | b, l :: rest =>
    match l.serialize_to b options with
    | .error e => .error e
    | .ok b1 => serializeLoop options (b1.push_layer l.layer_type) rest

/-- `serialize_layers(buffer, options, layers)` — writer/mod.rs lines
304–315: clears the buffer, then serializes the layers in reverse order,
aborting on the first error. -/
def serialize_layers (buffer : SerializeBuffer) (options : SerializeOptions)
    (layers : List SerializableLayer) : Option (Except String SerializeBuffer) :=
  match buffer.clear with
  | none => none
  | some c => some (serializeLoop options c layers.reverse)

theorem clear_layers_empty {b c : SerializeBuffer} (h : b.clear = some c) :
    c.layers = [] := by
  unfold SerializeBuffer.clear at h
  by_cases hp : b.prepended ≤ b.dataLen
  · rw [if_pos hp] at h
    cases h
    rfl
  · rw [if_neg hp] at h
    cases h

theorem serializeLoop_ok_trail (options : SerializeOptions)
    (ls : List SerializableLayer)
    (hpres : ∀ l ∈ ls, ∀ b2 b3, l.serialize_to b2 options = .ok b3 → b3.layers = b2.layers) :
    ∀ b out, serializeLoop options b ls = .ok out →
      out.layers = b.layers ++ ls.map SerializableLayer.layer_type := by
  induction ls with
  | nil =>
    intro b out h
    cases h
    simp [serializeLoop]
  | cons l rest ih =>
    intro b out h
    unfold serializeLoop at h
    cases hs : l.serialize_to b options with
    | error e => rw [hs] at h; cases h
    | ok b1 =>
      rw [hs] at h
      have h1 := ih (fun x hx => hpres x (List.mem_cons_of_mem l hx)) _ _ h
      have h2 : b1.layers = b.layers := hpres l (List.mem_cons_self l rest) b b1 hs
      simp [h1, SerializeBuffer.push_layer, h2]

theorem serializeLoop_append (options : SerializeOptions)
    (xs ys : List SerializableLayer) (b : SerializeBuffer) :
    serializeLoop options b (xs ++ ys) =
      match serializeLoop options b xs with
      | .ok b1 => serializeLoop options b1 ys
      | .error e => .error e := by
  induction xs generalizing b with
  | nil => simp [serializeLoop]
  | cons x rest ih =>
    simp only [List.cons_append, serializeLoop]
    cases hs : x.serialize_to b options with
    | error e => rfl
    | ok b1 => exact ih (b1.push_layer x.layer_type)

/-- C6: `serialize_layers` first clears the buffer, then runs
`serialize_to` over the layers in reverse list order (the last/innermost
element first).  First conjunct: on success the buffer's trail is exactly
the layer types in the order serialized — the reversed list order, with no
trace of the pre-clear trail (stated for layers whose `serialize_to`
honours the contract of not touching the diagnostic trail itself).  Second
conjunct: the first error is returned as is, and the earlier-listed outer
layers (`post`, universally quantified) are neither serialized nor
recorded — the result does not depend on them. -/
theorem c6_serialize_layers_reverse_and_first_error
    (buffer : SerializeBuffer) (options : SerializeOptions)
    (layers : List SerializableLayer) (c : SerializeBuffer)
    (hclear : buffer.clear = some c) :
    ((∀ l ∈ layers, ∀ b2 b3, l.serialize_to b2 options = .ok b3 → b3.layers = b2.layers) →
      ∀ out, serialize_layers buffer options layers = some (.ok out) →
        out.layers = layers.reverse.map SerializableLayer.layer_type) ∧
    (∀ pre lf post e b1, layers.reverse = pre ++ lf :: post →
      serializeLoop options c pre = .ok b1 →
      lf.serialize_to b1 options = .error e →
      serialize_layers buffer options layers = some (.error e)) := by
  constructor
  · intro hpres out h
    unfold serialize_layers at h
    rw [hclear] at h
    have h2 : serializeLoop options c layers.reverse = .ok out := Option.some.inj h
    have h3 := serializeLoop_ok_trail options layers.reverse
      (fun l hl => hpres l (List.mem_reverse.mp hl)) c out h2
    rw [h3, clear_layers_empty hclear, List.nil_append]
  · intro pre lf post e b1 hsplit hpre hfail
    unfold serialize_layers
    rw [hclear, hsplit]
    show some (serializeLoop options c (pre ++ lf :: post)) = some (.error e)
    rw [serializeLoop_append, hpre]
    simp only [serializeLoop, hfail]

/-- Witness for `c6_serialize_layers_reverse_and_first_error` on concrete
inputs: two succeeding layers leave the trail `[type 3, type 2]` (reverse
list order); inserting a failing layer in the middle aborts with its
error while the outer layer is never reached. -/
theorem c6_serialize_layers_witness :
    (((SerializeBuffer.new.push_layer ⟨3, "DecodeFragment"⟩).push_layer
          ⟨2, "Payload"⟩).layers =
      [⟨3, "DecodeFragment"⟩, ⟨2, "Payload"⟩]) ∧
    (serialize_layers SerializeBuffer.new ⟨false, false⟩
        [⟨fun b _ => .ok b, ⟨2, "Payload"⟩⟩,
         ⟨fun _ _ => .error "in_data is empty", ⟨7, "Bad"⟩⟩,
         ⟨fun b _ => .ok b, ⟨3, "DecodeFragment"⟩⟩] =
      some (.error "in_data is empty")) := by
  constructor
  · have h := (c6_serialize_layers_reverse_and_first_error SerializeBuffer.new ⟨false, false⟩
      [⟨fun b _ => .ok b, ⟨2, "Payload"⟩⟩, ⟨fun b _ => .ok b, ⟨3, "DecodeFragment"⟩⟩]
      SerializeBuffer.new rfl).1
    exact h
      (by
        intro l hl b2 b3 hs
        rcases List.mem_cons.mp hl with h1 | h1
        · subst h1; cases hs; rfl
        · rcases List.mem_cons.mp h1 with h2 | h2
          · subst h2; cases hs; rfl
          · cases h2)
      ((SerializeBuffer.new.push_layer ⟨3, "DecodeFragment"⟩).push_layer ⟨2, "Payload"⟩)
      rfl
  · exact (c6_serialize_layers_reverse_and_first_error SerializeBuffer.new ⟨false, false⟩
      _ SerializeBuffer.new rfl).2
      [⟨fun b _ => .ok b, ⟨3, "DecodeFragment"⟩⟩]
      ⟨fun _ _ => .error "in_data is empty", ⟨7, "Bad"⟩⟩
      [⟨fun b _ => .ok b, ⟨2, "Payload"⟩⟩]
      "in_data is empty"
      (SerializeBuffer.new.push_layer ⟨3, "DecodeFragment"⟩)
      rfl rfl rfl

/-- Iterated `prepend_bytes(2)` calls starting from a given buffer. -/
def prependCalls (b : SerializeBuffer) : Nat → Option SerializeBuffer
  | 0 => some b
  | n + 1 =>
    match prependCalls b n with
    | none => none
    | some b1 => b1.prepend_bytes 2

/-- C7: starting from `SerializeBuffer::new()`, nine successive
`prepend_bytes(2)` calls leave the backing capacities
2, 4, 8, 8, 16, 16, 16, 16, 32 after each call, and a subsequent `clear()`
makes `bytes()` empty (zero visible length) while the window start stays at
the accumulated prepended amount 32. -/
theorem c7_prepend_growth_and_clear :
    ((List.range 9).map
        (fun k => (prependCalls SerializeBuffer.new (k + 1)).map SerializeBuffer.dataCap) =
      [some 2, some 4, some 8, some 8, some 16, some 16, some 16, some 16, some 32]) ∧
    (((prependCalls SerializeBuffer.new 9).bind SerializeBuffer.clear).map
        (fun b => (b.start, b.bytesLen)) = some (32, some 0)) := by
  constructor
  · rfl
  · rfl

end RustyPacket
